import Mathlib

/-!
Shallow embedding of the OAP rust-engine text-processing library
(src/rust-engine/src/lib.rs): tokenization, syllable estimation,
readability and style metrics, optimization suggestions, conflict
resolution and content hashing, together with theorems checking the
specification's claims against it.

Modelling conventions:
* Text is a `String` / `List Char`; positions are character indices
  (identical to the source's byte offsets on ASCII input, which is all the
  concrete inputs used here involve for position claims).
* The regex character classes `\w` and `\s` are modelled on their ASCII
  portion (plus nothing else); every universally quantified theorem below
  is independent of the classifier, and every concrete input is ASCII.
* `f64` is modelled by `F` below: NaN, signed infinity, or an exact
  rational.  The engine combines finite values only with `+ - * /` and no
  settled claim depends on rounding, so exact rational arithmetic is
  faithful; `0.0 / 0.0` (the one division the source leaves unguarded) is
  NaN exactly as in IEEE-754.
-/

/-- Model of an IEEE-754 `f64` value: NaN, a signed infinity (`true` is
positive infinity), or a finite value held as an exact rational. -/
inductive F where
  | nan : F
  | inf : Bool → F
  | val : ℚ → F
deriving DecidableEq

def F.add : F → F → F
  | nan, _ => nan
  | _, nan => nan
  | inf s, inf t => if s = t then inf s else nan
  | inf s, val _ => inf s
  | val _, inf t => inf t
  | val a, val b => val (a + b)

def F.sub : F → F → F
  | nan, _ => nan
  | _, nan => nan
  | inf s, inf t => if s = t then nan else inf s
  | inf s, val _ => inf s
  | val _, inf t => inf (!t)
  | val a, val b => val (a - b)

def F.mul : F → F → F
  | nan, _ => nan
  | _, nan => nan
  | inf s, inf t => inf (s = t)
  | inf s, val b => if b = 0 then nan else if 0 < b then inf s else inf (!s)
  | val a, inf t => if a = 0 then nan else if 0 < a then inf t else inf (!t)
  | val a, val b => val (a * b)

def F.div : F → F → F
  | nan, _ => nan
  | _, nan => nan
  | inf _, inf _ => nan
  | inf s, val b => if 0 ≤ b then inf s else inf (!s)
  | val _, inf _ => val 0
  | val a, val b =>
    if b = 0 then (if a = 0 then nan else if 0 < a then inf true else inf false)
    else val (a / b)

instance : Add F := ⟨F.add⟩
instance : Sub F := ⟨F.sub⟩
instance : Mul F := ⟨F.mul⟩
instance : Div F := ⟨F.div⟩

/-- A modelled `f64` is nonnegative: a finite value `≥ 0` or `+∞`
(NaN is not nonnegative). -/
def F.Nonneg : F → Prop
  | nan => False
  | inf s => s = true
  | val q => 0 ≤ q

instance (x : F) : Decidable x.Nonneg :=
  match x with
  | F.nan => isFalse id
  | F.inf s => inferInstanceAs (Decidable (s = true))
  | F.val q => inferInstanceAs (Decidable (0 ≤ q))

/-! ### Character classes (regex `\w`, `\s`, sentence terminators) -/

/-- ASCII portion of the regex class `\w` (letters, digits, underscore). -/
def isWordChar (c : Char) : Bool := c.isAlphanum || c = '_'

/-- The sentence-terminator class `[.!?]`. -/
def isSentenceTerm (c : Char) : Bool := c = '.' || c = '!' || c = '?'

/-- ASCII portion of the regex class `\s` (also used for Rust `str::trim`). -/
def isRustWs (c : Char) : Bool :=
  c = ' ' || c = '\t' || c = '\n' || c = '\r' || c = '\x0b' || c = '\x0c'

/-! ### Generic regex-style scanning machinery

`findIter` replays `Regex::find_iter`: starting from position 0, try the
single-position matcher at each index; on a match `[i, e)` record it and
resume at `e`; otherwise advance one position. -/

def findIterGo (m : List Char → Nat → Option Nat) (t : List Char) :
    Nat → Nat → List (Nat × Nat)
  | 0, _ => []
  | fuel + 1, i =>
    if i ≤ t.length then
      match m t i with
      | some e => (i, e) :: findIterGo m t fuel (max e (i + 1))
      | none => findIterGo m t fuel (i + 1)
    else []

def findIter (m : List Char → Nat → Option Nat) (t : List Char) :
    List (Nat × Nat) :=
  findIterGo m t (t.length + 1) 0

/-- The pieces of `t` between the (disjoint, ordered) matches, as produced
by `Regex::split` / `str::split`: `n` matches yield `n + 1` fragments,
empty fragments included. -/
def fragmentsFrom (t : List Char) : List (Nat × Nat) → Nat → List (List Char)
  | [], s => [t.drop s]
  | m :: rest, s => ((t.drop s).take (m.1 - s)) :: fragmentsFrom t rest m.2

def regexSplit (m : List Char → Nat → Option Nat) (t : List Char) :
    List (List Char) :=
  fragmentsFrom t (findIter m t) 0

/-- Word boundary `\b` holds before position `i` when `i` is at the start of
the text or the previous character is not a word character (our matchers
additionally require a word character at `i`). -/
def boundaryAt (t : List Char) (i : Nat) : Bool :=
  i == 0 || !(isWordChar (t.getD (i - 1) ' '))

def prefixAt (t : List Char) (i : Nat) (p : List Char) : Bool :=
  p.isPrefixOf (t.drop i)

/-- Length of the maximal run of characters satisfying `p` starting at `i`. -/
def runLenFrom (p : Char → Bool) (t : List Char) (i : Nat) : Nat :=
  ((t.drop i).takeWhile p).length

/-! ### The engine's individual patterns -/

/-- One alternative of `\b(was|were|been|being)\s+\w+ed\b`: the auxiliary
`a` as a literal prefix at `i`, then one or more whitespace characters,
then a maximal run of word characters that is at least 3 long and ends in
`ed` (the trailing `\b` forces the `\w+ed` part to cover the whole run). -/
def tryPassiveAux (t : List Char) (i : Nat) (a : List Char) : Option Nat :=
  if prefixAt t i a then
    let j := i + a.length
    let w := runLenFrom isRustWs t j
    if w = 0 then none
    else
      let k := j + w
      let r := runLenFrom isWordChar t k
      if 3 ≤ r ∧ t.getD (k + r - 2) ' ' = 'e' ∧ t.getD (k + r - 1) ' ' = 'd'
      then some (k + r)
      else none
  else none

def passiveAuxForms : List (List Char) :=
  [String.data "was", String.data "were", String.data "been", String.data "being"]

/-- Single-position matcher for `\b(was|were|been|being)\s+\w+ed\b`. -/
def matchPassiveAt (t : List Char) (i : Nat) : Option Nat :=
  if boundaryAt t i then passiveAuxForms.findSome? (tryPassiveAux t i)
  else none

/-- Single-position matcher for `\b\w+ly\b`: a maximal word-character run of
length at least 3 ending in `ly`. -/
def matchAdverbAt (t : List Char) (i : Nat) : Option Nat :=
  if boundaryAt t i then
    let r := runLenFrom isWordChar t i
    if 3 ≤ r ∧ t.getD (i + r - 2) ' ' = 'l' ∧ t.getD (i + r - 1) ' ' = 'y'
    then some (i + r)
    else none
  else none

/-- Single-position matcher for the dialogue pattern `"[^"]*"`. -/
def matchDialogueAt (t : List Char) (i : Nat) : Option Nat :=
  if t.getD i '_' = '"' then
    let r := runLenFrom (fun c => c != '"') t (i + 1)
    if t.getD (i + 1 + r) '_' = '"' then some (i + r + 2) else none
  else none

/-- Single-position matcher for the sentence-terminator pattern `[.!?]+`:
the maximal nonempty run of terminators. -/
def matchTermRunAt (t : List Char) (i : Nat) : Option Nat :=
  let r := runLenFrom isSentenceTerm t i
  if r = 0 then none else some (i + r)

/-- Index of the last occurrence of `c` in `l`, if any. -/
def lastIdxOf (c : Char) (l : List Char) : Option Nat :=
  (List.range l.length).foldl (fun acc j => if l.getD j ' ' = c then some j else acc) none

/-- Single-position matcher for the paragraph pattern `\n\s*\n`: a newline,
then (greedy `\s*` with backtracking) up to the last newline inside the
maximal whitespace run that follows. -/
def matchParaAt (t : List Char) (i : Nat) : Option Nat :=
  if t.getD i '_' = '\n' then
    let w := runLenFrom isRustWs t (i + 1)
    match lastIdxOf '\n' ((t.drop (i + 1)).take w) with
    | some p => some (i + 1 + p + 1)
    | none => none
  else none

/-- Single-position matcher for a literal `.` (for `str::split('.')`). -/
def matchDotAt (t : List Char) (i : Nat) : Option Nat :=
  if t.getD i '_' = '.' then some (i + 1) else none

/-! ### Tokenizer -/

def wordRunsGo : Nat → List Char → List (List Char)
  | 0, _ => []
  | _, [] => []
  | fuel + 1, c :: cs =>
    if isWordChar c then
      ((c :: cs).takeWhile isWordChar) :: wordRunsGo fuel ((c :: cs).dropWhile isWordChar)
    else wordRunsGo fuel cs

/-- All matches of `\b\w+\b` in order: the maximal runs of word characters. -/
def wordRuns (t : List Char) : List (List Char) :=
  wordRunsGo t.length t

/-- A split fragment survives the `!s.trim().is_empty()` filter exactly when
it contains a non-whitespace character. -/
def fragKeep (f : List Char) : Bool := f.any (fun c => !(isRustWs c))

def sentencesOf (t : List Char) : List (List Char) :=
  (regexSplit matchTermRunAt t).filter fragKeep

def paragraphsOf (t : List Char) : List (List Char) :=
  (regexSplit matchParaAt t).filter fragKeep

/-! ### Syllable estimation (`count_syllables`) -/

def vowelChars : List Char := String.data "aeiouyAEIOUY"

def isVowel (c : Char) : Bool := vowelChars.contains c

/-- The scan loop of `count_syllables`: count transitions from non-vowel to
vowel, threading `prev_was_vowel`. -/
def syllGo : List Char → Bool → Nat
  | [], _ => 0
  | c :: cs, prev =>
    let iv := isVowel c
    (if iv && !prev then 1 else 0) + syllGo cs iv

/-- `count_syllables` on a word given as a character list: vowel-group count,
minus one if the word ends in (lowercase) `e` while the count exceeds 1,
clamped to a minimum of 1. -/
def countSyllablesL (l : List Char) : Nat :=
  max (if l.getLast? = some 'e' ∧ 1 < syllGo l false then syllGo l false - 1
       else syllGo l false) 1

def count_syllables (w : String) : Nat := countSyllablesL w.data

/-- `calculate_avg_syllables`: 0.0 for an empty word list, else the mean of
the per-word estimates. -/
def calculate_avg_syllables (words : List (List Char)) : F :=
  if words.isEmpty then F.val 0
  else F.val (((words.map countSyllablesL).sum : ℚ) / (words.length : ℚ))

/-! ### Conflict resolution (`auto_resolve_conflicts`) -/

structure CollaborationConflict where
  conflict_id : String
  conflict_type : String
  start_pos : Nat
  end_pos : Nat
  user_a_change : String
  user_b_change : String
  timestamp : String
  resolution_suggestion : String
deriving DecidableEq

/-- UTF-8 encoding of one character as its byte values. -/
def utf8Bytes (c : Char) : List Nat :=
  let n := c.toNat
  if n < 0x80 then [n]
  else if n < 0x800 then [0xc0 + n / 0x40, 0x80 + n % 0x40]
  else if n < 0x10000 then
    [0xe0 + n / 0x1000, 0x80 + (n / 0x40) % 0x40, 0x80 + n % 0x40]
  else
    [0xf0 + n / 0x40000, 0x80 + (n / 0x1000) % 0x40,
     0x80 + (n / 0x40) % 0x40, 0x80 + n % 0x40]

/-- The UTF-8 bytes of a string (Rust `str::as_bytes`). -/
def strBytes (s : String) : List Nat := (s.data.map utf8Bytes).flatten

/-- Rust `str::len`: the UTF-8 byte length (not the character count). -/
def rustLen (s : String) : Nat := (strBytes s).length

/-- The resolution string chosen by the per-type dispatch in
`auto_resolve_conflicts`. -/
def resolutionFor (c : CollaborationConflict) : String :=
  if c.conflict_type = "text_insertion" then
    c.user_a_change ++ " " ++ c.user_b_change
  else if c.conflict_type = "text_deletion" then
    if rustLen c.user_a_change < rustLen c.user_b_change then c.user_a_change
    else c.user_b_change
  else if c.conflict_type = "text_modification" then c.user_b_change
  else "Manual resolution required"

/-- One loop iteration of `auto_resolve_conflicts`: overwrite
`resolution_suggestion`, leave every other field unchanged. -/
def autoResolveOne (c : CollaborationConflict) : CollaborationConflict :=
  { c with resolution_suggestion := resolutionFor c }

def auto_resolve_conflicts (conflicts : List CollaborationConflict) :
    List CollaborationConflict :=
  conflicts.map autoResolveOne

/-- The exported `resolve_conflicts` entry point (the wasm wrapper only
(de)serializes around `auto_resolve_conflicts`). -/
def resolve_conflicts (conflicts : List CollaborationConflict) :
    List CollaborationConflict :=
  auto_resolve_conflicts conflicts

/-! ### Content hashing: SHA-256 of the UTF-8 bytes, base64-encoded -/

def M32 : Nat := 4294967296

def rotr (n x : Nat) : Nat := ((x >>> n) ||| (x <<< (32 - n))) % M32

def bsig0 (x : Nat) : Nat := (rotr 2 x) ^^^ (rotr 13 x) ^^^ (rotr 22 x)

def bsig1 (x : Nat) : Nat := (rotr 6 x) ^^^ (rotr 11 x) ^^^ (rotr 25 x)

def ssig0 (x : Nat) : Nat := (rotr 7 x) ^^^ (rotr 18 x) ^^^ (x >>> 3)

def ssig1 (x : Nat) : Nat := (rotr 17 x) ^^^ (rotr 19 x) ^^^ (x >>> 10)

def sha256K : List Nat :=
  [1116352408, 1899447441, 3049323471, 3921009573, 961987163,
   1508970993, 2453635748, 2870763221, 3624381080, 310598401,
   607225278, 1426881987, 1925078388, 2162078206, 2614888103,
   3248222580, 3835390401, 4022224774, 264347078, 604807628,
   770255983, 1249150122, 1555081692, 1996064986, 2554220882,
   2821834349, 2952996808, 3210313671, 3336571891, 3584528711,
   113926993, 338241895, 666307205, 773529912, 1294757372,
   1396182291, 1695183700, 1986661051, 2177026350, 2456956037,
   2730485921, 2820302411, 3259730800, 3345764771, 3516065817,
   3600352804, 4094571909, 275423344, 430227734, 506948616,
   659060556, 883997877, 958139571, 1322822218, 1537002063,
   1747873779, 1955562222, 2024104815, 2227730452, 2361852424,
   2428436474, 2756734187, 3204031479, 3329325298]

def sha256H0 : List Nat :=
  [1779033703, 3144134277, 1013904242, 2773480762, 1359893119,
   2600822924, 528734635, 1541459225]

/-- `k` bytes of `n`, big-endian. -/
def beBytes (k n : Nat) : List Nat :=
  (List.range k).map (fun i => (n >>> (8 * (k - 1 - i))) % 256)

/-- SHA-256 padding: `0x80`, zeros to 56 mod 64, then the 64-bit big-endian
bit length. -/
def sha256pad (msg : List Nat) : List Nat :=
  let z := (119 - msg.length % 64) % 64
  msg ++ [0x80] ++ List.replicate z 0 ++ beBytes 8 ((msg.length * 8) % (2 ^ 64))

/-- The 32-bit big-endian word at byte offset `4 * i` of a chunk. -/
def beWord (b : List Nat) (i : Nat) : Nat :=
  (b.getD (4 * i) 0) * 0x1000000 + (b.getD (4 * i + 1) 0) * 0x10000 +
  (b.getD (4 * i + 2) 0) * 0x100 + b.getD (4 * i + 3) 0

/-- The 64-entry message schedule of one 64-byte chunk. -/
def sha256schedule (chunk : List Nat) : List Nat :=
  (List.range 48).foldl
    (fun w _ =>
      let n := w.length
      w ++ [(ssig1 (w.getD (n - 2) 0) + w.getD (n - 7) 0 +
             ssig0 (w.getD (n - 15) 0) + w.getD (n - 16) 0) % M32])
    ((List.range 16).map (beWord chunk))

/-- One compression round on the state `[a, b, c, d, e, f, g, h]`. -/
def sha256round (k w : Nat) (s : List Nat) : List Nat :=
  match s with
  | [a, b, c, d, e, f, g, h] =>
    let ch := (e &&& f) ^^^ ((e ^^^ (M32 - 1)) &&& g)
    let t1 := (h + bsig1 e + ch + k + w) % M32
    let maj := (a &&& b) ^^^ (a &&& c) ^^^ (b &&& c)
    let t2 := (bsig0 a + maj) % M32
    [(t1 + t2) % M32, a, b, c, (d + t1) % M32, e, f, g]
  | _ => s

def sha256chunk (h : List Nat) (chunk : List Nat) : List Nat :=
  let s := (List.zip sha256K (sha256schedule chunk)).foldl
    (fun s kw => sha256round kw.1 kw.2 s) h
  (List.zip h s).map (fun p => (p.1 + p.2) % M32)

def chunks64Go : Nat → List Nat → List (List Nat)
  | 0, _ => []
  | _, [] => []
  | fuel + 1, l => l.take 64 :: chunks64Go fuel (l.drop 64)

/-- SHA-256 digest (32 bytes) of a byte sequence. -/
def sha256 (msg : List Nat) : List Nat :=
  let padded := sha256pad msg
  ((chunks64Go padded.length padded).foldl sha256chunk sha256H0).foldr
    (fun w acc => beBytes 4 w ++ acc) []

def b64Alphabet : List Char :=
  String.data "ABCDEFGHIJKLMNOPQRSTUVWXYZabcdefghijklmnopqrstuvwxyz0123456789+/"

def b64Char (n : Nat) : Char := b64Alphabet.getD n '?'

/-- Standard base64 with `=` padding, in 3-byte groups. -/
def b64EncodeGo : Nat → List Nat → List Char
  | 0, _ => []
  | _, [] => []
  | fuel + 1, b1 :: rest =>
    match rest with
    | b2 :: b3 :: rest2 =>
      let n := b1 * 65536 + b2 * 256 + b3
      b64Char (n / 262144) :: b64Char ((n / 4096) % 64) ::
        b64Char ((n / 64) % 64) :: b64Char (n % 64) :: b64EncodeGo fuel rest2
    | [b2] =>
      let n := b1 * 65536 + b2 * 256
      [b64Char (n / 262144), b64Char ((n / 4096) % 64), b64Char ((n / 64) % 64), '=']
    | [] =>
      let n := b1 * 65536
      [b64Char (n / 262144), b64Char ((n / 4096) % 64), '=', '=']

def b64Encode (bytes : List Nat) : List Char := b64EncodeGo bytes.length bytes

/-- `generate_content_hash`: base64 of the SHA-256 digest of the text bytes. -/
def generate_content_hash (text : String) : String :=
  String.mk (b64Encode (sha256 (strBytes text)))

/-! ### Metrics (`perform_analysis`) -/

structure ComplexityMetrics where
  avg_words_per_sentence : F
  avg_syllables_per_word : F
  fog_index : F
  flesch_reading_ease : F
  unique_word_ratio : F
deriving DecidableEq

structure StyleMetrics where
  passive_voice_ratio : F
  adverb_ratio : F
  dialogue_ratio : F
  action_ratio : F
  description_ratio : F
deriving DecidableEq

structure TextAnalysisResult where
  word_count : Nat
  character_count : Nat
  paragraph_count : Nat
  sentence_count : Nat
  readability_score : F
  complexity_metrics : ComplexityMetrics
  style_metrics : StyleMetrics
  content_hash : String
deriving DecidableEq

/-- `if sentence_count > 0 { word_count as f64 / sentence_count as f64 }
else { 0.0 }`. -/
def avgWordsPerSentence (t : List Char) : F :=
  if 0 < (sentencesOf t).length then
    F.val ((wordRuns t).length : ℚ) / F.val ((sentencesOf t).length : ℚ)
  else F.val 0

def avgSyllablesPerWord (t : List Char) : F :=
  calculate_avg_syllables (wordRuns t)

/-- The distinct lowercased words, via the `HashSet` in the source. -/
def uniqueWords (t : List Char) : List (List Char) :=
  ((wordRuns t).map (fun w => w.map Char.toLower)).dedup

def uniqueWordRatio (t : List Char) : F :=
  if 0 < (wordRuns t).length then
    F.val ((uniqueWords t).length : ℚ) / F.val ((wordRuns t).length : ℚ)
  else F.val 0

/-- `206.835 - 1.015 * avg_words_per_sentence - 84.6 * avg_syllables_per_word`. -/
def fleschReadingEase (t : List Char) : F :=
  F.val (206.835 : ℚ) - F.val (1.015 : ℚ) * avgWordsPerSentence t -
    F.val (84.6 : ℚ) * avgSyllablesPerWord t

def complexWordCount (t : List Char) : Nat :=
  ((wordRuns t).filter (fun w => 3 ≤ countSyllablesL w)).length

/-- `0.4 * (avg_words_per_sentence + 100.0 * (complex_words as f64 /
word_count as f64))` — note: the division is NOT guarded against
`word_count = 0`, unlike every other ratio in the source. -/
def fogIndex (t : List Char) : F :=
  F.val (0.4 : ℚ) * (avgWordsPerSentence t +
    F.val (100 : ℚ) * (F.val (complexWordCount t : ℚ) / F.val ((wordRuns t).length : ℚ)))

def passiveVoiceRatio (t : List Char) : F :=
  if 0 < (sentencesOf t).length then
    F.val ((findIter matchPassiveAt t).length : ℚ) / F.val ((sentencesOf t).length : ℚ)
  else F.val 0

def adverbRatio (t : List Char) : F :=
  if 0 < (wordRuns t).length then
    F.val ((findIter matchAdverbAt t).length : ℚ) / F.val ((wordRuns t).length : ℚ)
  else F.val 0

def dialogueRatio (t : List Char) : F :=
  if 0 < (paragraphsOf t).length then
    F.val ((findIter matchDialogueAt t).length : ℚ) / F.val ((paragraphsOf t).length : ℚ)
  else F.val 0

def perform_analysis (text : String) : TextAnalysisResult :=
  { word_count := (wordRuns text.data).length
    character_count := text.data.length
    paragraph_count := (paragraphsOf text.data).length
    sentence_count := (sentencesOf text.data).length
    readability_score := fleschReadingEase text.data
    complexity_metrics :=
      { avg_words_per_sentence := avgWordsPerSentence text.data
        avg_syllables_per_word := avgSyllablesPerWord text.data
        fog_index := fogIndex text.data
        flesch_reading_ease := fleschReadingEase text.data
        unique_word_ratio := uniqueWordRatio text.data }
    style_metrics :=
      { passive_voice_ratio := passiveVoiceRatio text.data
        adverb_ratio := adverbRatio text.data
        dialogue_ratio := dialogueRatio text.data
        action_ratio := F.val 0
        description_ratio := F.val 0 }
    content_hash := generate_content_hash text }

/-- The exported `analyze_text` entry point (the wasm wrapper only
serializes the result of `perform_analysis`). -/
def analyze_text (text : String) : TextAnalysisResult := perform_analysis text

/-! ### Optimization suggestions (`generate_optimization_suggestions`) -/

structure OptimizationSuggestion where
  suggestion_type : String
  priority : String
  message : String
  start_pos : Nat
  end_pos : Nat
  suggested_replacement : Option String
deriving DecidableEq

def sentenceLengthMessage : String :=
  "Consider breaking this long sentence into shorter ones for better readability."

def passiveVoiceMessage : String :=
  "Consider using active voice for more engaging writing."

def adverbMessage : String :=
  "Consider using stronger verbs instead of adverbs."

def generate_optimization_suggestions (text : String) :
    List OptimizationSuggestion :=
  let t := text.data
  ((regexSplit matchDotAt t).enum.filter
      (fun p => 25 < (wordRuns p.2).length)).map
    (fun p =>
      { suggestion_type := "sentence_length"
        priority := "medium"
        message := sentenceLengthMessage
        start_pos := p.1 * 50
        end_pos := (p.1 + 1) * 50
        suggested_replacement := none }) ++
  (findIter matchPassiveAt t).map
    (fun m =>
      { suggestion_type := "passive_voice"
        priority := "low"
        message := passiveVoiceMessage
        start_pos := m.1
        end_pos := m.2
        suggested_replacement := none }) ++
  (findIter matchAdverbAt t).map
    (fun m =>
      { suggestion_type := "adverb_usage"
        priority := "low"
        message := adverbMessage
        start_pos := m.1
        end_pos := m.2
        suggested_replacement := none })

/-- The exported `optimize_text` entry point. -/
def optimize_text (text : String) : List OptimizationSuggestion :=
  generate_optimization_suggestions text

/-! ### Concrete conflict records used by the claim checks -/

def c3_tie_conflict : CollaborationConflict :=
  { conflict_id := "c3", conflict_type := "text_deletion", start_pos := 0,
    end_pos := 0, user_a_change := "xx", user_b_change := "yy",
    timestamp := "t0", resolution_suggestion := "" }

def c3_example_conflict : CollaborationConflict :=
  { conflict_id := "c3e", conflict_type := "text_deletion", start_pos := 0,
    end_pos := 0, user_a_change := "ab", user_b_change := "abcdef",
    timestamp := "t0", resolution_suggestion := "" }

def c4_ins_conflict : CollaborationConflict :=
  { conflict_id := "c4i", conflict_type := "text_insertion", start_pos := 0,
    end_pos := 0, user_a_change := "foo", user_b_change := "bar",
    timestamp := "t0", resolution_suggestion := "" }

def c4_mod_conflict : CollaborationConflict :=
  { conflict_id := "c4m", conflict_type := "text_modification", start_pos := 0,
    end_pos := 0, user_a_change := "old", user_b_change := "new",
    timestamp := "2019-01-01", resolution_suggestion := "" }

def c4_unk_conflict : CollaborationConflict :=
  { conflict_id := "c4u", conflict_type := "unknown_type", start_pos := 0,
    end_pos := 0, user_a_change := "x", user_b_change := "y",
    timestamp := "t0", resolution_suggestion := "" }

def c5_demo_conflict : CollaborationConflict :=
  { conflict_id := "k1", conflict_type := "text_insertion", start_pos := 3,
    end_pos := 7, user_a_change := "aa", user_b_change := "bb",
    timestamp := "ts", resolution_suggestion := "untouched" }

def c10_conflict : CollaborationConflict :=
  { conflict_id := "c10", conflict_type := "text_deletion", start_pos := 0,
    end_pos := 0, user_a_change := "ééé", user_b_change := "abcd",
    timestamp := "t0", resolution_suggestion := "" }

/-! ### Helper lemmas about `F` -/

theorem F.val_add_val (a b : ℚ) : F.val a + F.val b = F.val (a + b) := rfl

theorem F.val_mul_val (a b : ℚ) : F.val a * F.val b = F.val (a * b) := rfl

theorem F.val_div_val (a b : ℚ) (hb : b ≠ 0) :
    F.val a / F.val b = F.val (a / b) := by
  show F.div (F.val a) (F.val b) = F.val (a / b)
  simp [F.div, hb]

theorem F.nonneg_val {q : ℚ} (h : 0 ≤ q) : F.Nonneg (F.val q) := h

/-- The guarded `if denom > 0 { num / denom } else { 0.0 }` idiom of the
source always yields a nonnegative finite value. -/
theorem guardedRatio_val (a b : Nat) :
    ∃ q : ℚ, (if 0 < b then F.val (a : ℚ) / F.val (b : ℚ) else F.val 0) = F.val q ∧
      0 ≤ q := by
  split_ifs with h
  · refine ⟨(a : ℚ) / (b : ℚ), ?_, div_nonneg (Nat.cast_nonneg a) (Nat.cast_nonneg b)⟩
    exact F.val_div_val _ _ (Nat.cast_ne_zero.mpr h.ne')
  · exact ⟨0, rfl, le_refl 0⟩

theorem guardedRatio_nonneg (a b : Nat) :
    F.Nonneg (if 0 < b then F.val (a : ℚ) / F.val (b : ℚ) else F.val 0) := by
  obtain ⟨q, hq, hq0⟩ := guardedRatio_val a b
  rw [hq]
  exact F.nonneg_val hq0

theorem avgWordsPerSentence_val (t : List Char) :
    ∃ q : ℚ, avgWordsPerSentence t = F.val q ∧ 0 ≤ q := by
  unfold avgWordsPerSentence
  exact guardedRatio_val _ _

theorem calculate_avg_syllables_nonneg (ws : List (List Char)) :
    F.Nonneg (calculate_avg_syllables ws) := by
  unfold calculate_avg_syllables
  split_ifs
  · exact F.nonneg_val (le_refl 0)
  · exact F.nonneg_val (div_nonneg (Nat.cast_nonneg _) (Nat.cast_nonneg _))

/-! ### Claim C1 -/

set_option maxRecDepth 16000 in
/-- C1: on the empty input, all four counts are 0, `flesch_reading_ease`
(and `readability_score`) is exactly the literal 206.835 and every guarded
ratio is exactly 0.0 — but, contrary to the claim, `fog_index` is NaN, not
0.0: the source computes `0.4 * (0.0 + 100.0 * (0.0 / 0.0))` without the
zero-denominator guard used for every other ratio. -/
theorem c1_empty_analysis :
    (analyze_text "").word_count = 0 ∧
    (analyze_text "").character_count = 0 ∧
    (analyze_text "").sentence_count = 0 ∧
    (analyze_text "").paragraph_count = 0 ∧
    (analyze_text "").readability_score = F.val (206.835 : ℚ) ∧
    (analyze_text "").complexity_metrics.flesch_reading_ease = F.val (206.835 : ℚ) ∧
    (analyze_text "").complexity_metrics.avg_words_per_sentence = F.val 0 ∧
    (analyze_text "").complexity_metrics.avg_syllables_per_word = F.val 0 ∧
    (analyze_text "").complexity_metrics.unique_word_ratio = F.val 0 ∧
    (analyze_text "").style_metrics.passive_voice_ratio = F.val 0 ∧
    (analyze_text "").style_metrics.adverb_ratio = F.val 0 ∧
    (analyze_text "").style_metrics.dialogue_ratio = F.val 0 ∧
    (analyze_text "").style_metrics.action_ratio = F.val 0 ∧
    (analyze_text "").style_metrics.description_ratio = F.val 0 ∧
    (analyze_text "").complexity_metrics.fog_index = F.nan := by
  refine ⟨by decide, by decide, by decide, by decide, by with_unfolding_all rfl,
    by with_unfolding_all rfl, by decide, by decide, by decide, by decide,
    by decide, by decide, by decide, by decide, by decide⟩

/-! ### Claim C6 -/

/-- C6: the syllable estimate of any non-empty word is at least 1 (the
source clamps with `max(count, 1)`), and the three quoted values hold:
`count_syllables "cake" = 1`, `count_syllables "hello" = 2`,
`count_syllables "a" = 1`. -/
theorem c6_syllables :
    (∀ w : String, w ≠ "" → 1 ≤ count_syllables w) ∧
    count_syllables "cake" = 1 ∧
    count_syllables "hello" = 2 ∧
    count_syllables "a" = 1 := by
  refine ⟨fun w _ => ?_, by decide, by decide, by decide⟩
  show 1 ≤ countSyllablesL w.data
  unfold countSyllablesL
  exact le_max_right _ _

/-- Witness for C6 at the concrete word "hello". -/
theorem c6_witness : 1 ≤ count_syllables "hello" :=
  c6_syllables.1 "hello" (by decide)

/-! ### Claim C9 -/

/-- C9: the silent-e decrement fires only on a lowercase final `e`
(`word.ends_with('e')`), while vowel counting accepts uppercase vowels, so
`count_syllables "CAKE" = 2` although `count_syllables "cake" = 1`. -/
theorem c9_silent_e_case_sensitive :
    count_syllables "CAKE" = 2 ∧ count_syllables "cake" = 1 := by
  decide

/-! ### Claim C8 -/

/-- C8: `generate_content_hash` is a pure deterministic function of the
text (equal inputs give equal outputs), and on concrete inputs differing
in a single character the outputs differ. -/
theorem c8_hash_deterministic :
    (∀ t1 t2 : String, t1 = t2 →
      generate_content_hash t1 = generate_content_hash t2) ∧
    generate_content_hash "a" ≠ generate_content_hash "b" ∧
    generate_content_hash "hello" ≠ generate_content_hash "hellp" := by
  refine ⟨fun t1 t2 h => congrArg generate_content_hash h, by decide, by decide⟩

/-- Witness for C8: determinism applied at the concrete text "x". -/
theorem c8_witness : generate_content_hash "x" = generate_content_hash "x" :=
  c8_hash_deterministic.1 "x" "x" rfl

/-! ### Claim C3 -/

/-- C3 counterexample: on a `text_deletion` conflict whose two change
strings have equal length, the source's `if a.len() < b.len() { a } else
{ b }` takes the `else` branch and returns `user_b_change`, not
`user_a_change` as the claim states. -/
theorem c3_counterexample :
    rustLen c3_tie_conflict.user_a_change = rustLen c3_tie_conflict.user_b_change ∧
    c3_tie_conflict.user_a_change.length = c3_tie_conflict.user_b_change.length ∧
    resolve_conflicts [c3_tie_conflict] =
      [{ c3_tie_conflict with resolution_suggestion := "yy" }] ∧
    c3_tie_conflict.user_a_change ≠ "yy" := by
  decide

/-- C3 (amended): for every `text_deletion` conflict the resolution is the
shorter of the two change strings measured in bytes, and an equal-length
tie yields `user_b_change` (not `user_a_change`). -/
theorem c3_deletion_shorter (c : CollaborationConflict)
    (h : c.conflict_type = "text_deletion") :
    (autoResolveOne c).resolution_suggestion =
      if rustLen c.user_a_change < rustLen c.user_b_change then c.user_a_change
      else c.user_b_change := by
  show resolutionFor c = _
  unfold resolutionFor
  rw [h]
  rfl

/-- Witness for C3 at the claim's own example: `"ab"` against `"abcdef"`
resolves to `"ab"`. -/
theorem c3_witness :
    (autoResolveOne c3_example_conflict).resolution_suggestion = "ab" :=
  (c3_deletion_shorter c3_example_conflict rfl).trans (by decide)

/-! ### Claim C4 -/

/-- C4: the resolution is a pure function of `conflict_type`:
`text_insertion` concatenates the two changes with one space,
`text_modification` always takes `user_b_change` (the `timestamp` field is
universally quantified, hence never consulted), and any unrecognized type
yields the literal "Manual resolution required". -/
theorem c4_dispatch (c : CollaborationConflict) :
    (c.conflict_type = "text_insertion" →
      (autoResolveOne c).resolution_suggestion =
        c.user_a_change ++ " " ++ c.user_b_change) ∧
    (c.conflict_type = "text_modification" →
      (autoResolveOne c).resolution_suggestion = c.user_b_change) ∧
    (c.conflict_type ≠ "text_insertion" → c.conflict_type ≠ "text_deletion" →
      c.conflict_type ≠ "text_modification" →
      (autoResolveOne c).resolution_suggestion = "Manual resolution required") := by
  refine ⟨fun h => ?_, fun h => ?_, fun h1 h2 h3 => ?_⟩
  · show resolutionFor c = _
    unfold resolutionFor
    rw [h]
    rfl
  · show resolutionFor c = _
    unfold resolutionFor
    rw [h]
    rfl
  · show resolutionFor c = _
    unfold resolutionFor
    rw [if_neg h1, if_neg h2, if_neg h3]

/-- Witness for C4 at three concrete conflicts, one per dispatch arm
(including the spec's "foo"/"bar" example). -/
theorem c4_witness :
    (autoResolveOne c4_ins_conflict).resolution_suggestion = "foo bar" ∧
    (autoResolveOne c4_mod_conflict).resolution_suggestion = "new" ∧
    (autoResolveOne c4_unk_conflict).resolution_suggestion =
      "Manual resolution required" :=
  ⟨((c4_dispatch c4_ins_conflict).1 rfl).trans (by decide),
   ((c4_dispatch c4_mod_conflict).2.1 rfl).trans (by decide),
   (c4_dispatch c4_unk_conflict).2.2 (by decide) (by decide) (by decide)⟩

/-! ### Claim C5 -/

/-- C5: `resolve_conflicts` maps the input list element-wise, so the output
has the same length and order and every field other than
`resolution_suggestion` passes through unchanged; the empty list maps to
the empty list. -/
theorem c5_frame (cs : List CollaborationConflict) :
    (resolve_conflicts cs).length = cs.length ∧
    (∀ (i : Nat) (h1 : i < (resolve_conflicts cs).length) (h2 : i < cs.length),
      ((resolve_conflicts cs).get ⟨i, h1⟩).conflict_id = (cs.get ⟨i, h2⟩).conflict_id ∧
      ((resolve_conflicts cs).get ⟨i, h1⟩).conflict_type = (cs.get ⟨i, h2⟩).conflict_type ∧
      ((resolve_conflicts cs).get ⟨i, h1⟩).start_pos = (cs.get ⟨i, h2⟩).start_pos ∧
      ((resolve_conflicts cs).get ⟨i, h1⟩).end_pos = (cs.get ⟨i, h2⟩).end_pos ∧
      ((resolve_conflicts cs).get ⟨i, h1⟩).user_a_change = (cs.get ⟨i, h2⟩).user_a_change ∧
      ((resolve_conflicts cs).get ⟨i, h1⟩).user_b_change = (cs.get ⟨i, h2⟩).user_b_change ∧
      ((resolve_conflicts cs).get ⟨i, h1⟩).timestamp = (cs.get ⟨i, h2⟩).timestamp) ∧
    resolve_conflicts [] = [] := by
  refine ⟨?_, fun i h1 h2 => ?_, rfl⟩
  · show (cs.map autoResolveOne).length = cs.length
    exact List.length_map cs autoResolveOne
  · have key : (resolve_conflicts cs).get ⟨i, h1⟩ = autoResolveOne (cs.get ⟨i, h2⟩) := by
      show (cs.map autoResolveOne).get ⟨i, h1⟩ = autoResolveOne (cs.get ⟨i, h2⟩)
      simp [List.get_eq_getElem, List.getElem_map]
    rw [key]
    exact ⟨rfl, rfl, rfl, rfl, rfl, rfl, rfl⟩

/-- Witness for C5 at a one-element list. -/
theorem c5_witness :
    (resolve_conflicts [c5_demo_conflict]).length = 1 ∧
    ((resolve_conflicts [c5_demo_conflict]).get ⟨0, by decide⟩).conflict_id = "k1" ∧
    ((resolve_conflicts [c5_demo_conflict]).get ⟨0, by decide⟩).timestamp = "ts" :=
  ⟨(c5_frame [c5_demo_conflict]).1,
   ((c5_frame [c5_demo_conflict]).2.1 0 (by decide) (by decide)).1,
   ((c5_frame [c5_demo_conflict]).2.1 0 (by decide) (by decide)).2.2.2.2.2.2⟩

/-! ### Claim C10 -/

/-- C10: in the `text_deletion` arm "shorter" means fewer UTF-8 bytes
(`str::len`), not fewer characters: whenever `user_b_change` has strictly
fewer bytes it wins, and on the concrete conflict whose `user_a_change`
"ééé" has fewer characters (3 < 4) but more bytes (6 > 4) than
`user_b_change` "abcd", the resolution is `user_b_change`. -/
theorem c10_byte_length :
    (∀ c : CollaborationConflict, c.conflict_type = "text_deletion" →
      rustLen c.user_b_change < rustLen c.user_a_change →
      (autoResolveOne c).resolution_suggestion = c.user_b_change) ∧
    (c10_conflict.user_a_change.length < c10_conflict.user_b_change.length ∧
     rustLen c10_conflict.user_b_change < rustLen c10_conflict.user_a_change ∧
     (autoResolveOne c10_conflict).resolution_suggestion =
       c10_conflict.user_b_change) := by
  refine ⟨fun c h hb => ?_, by decide, by decide, by decide⟩
  show resolutionFor c = _
  unfold resolutionFor
  rw [h]
  show (if rustLen c.user_a_change < rustLen c.user_b_change then c.user_a_change
        else c.user_b_change) = c.user_b_change
  rw [if_neg (by omega)]

/-- Witness for C10: the general byte-length rule applied at the concrete
mixed-width conflict. -/
theorem c10_witness :
    (autoResolveOne c10_conflict).resolution_suggestion = "abcd" :=
  (c10_byte_length.1 c10_conflict rfl (by decide)).trans (by decide)

/-! ### Claim C2 -/

/-- C2 counterexample: the claim's own example text "The ball was thrown"
yields no suggestion at all — "thrown" is an irregular past participle that
does not end in "ed", so the passive pattern
`\b(was|were|been|being)\s+\w+ed\b` does not match it. -/
theorem c2_counterexample :
    optimize_text "The ball was thrown" = [] := by
  decide

/-- C2 (amended): for every text and every match `[m.1, m.2)` of the
passive-voice pattern in it, `optimize_text` includes a `passive_voice` /
low-priority suggestion whose `start_pos` and `end_pos` exactly bound that
match (the quoted example must use a regular `ed` participle, e.g.
"The ball was kicked"). -/
theorem c2_passive_match_suggested (text : String) (m : Nat × Nat)
    (h : m ∈ findIter matchPassiveAt text.data) :
    ({ suggestion_type := "passive_voice", priority := "low",
       message := passiveVoiceMessage, start_pos := m.1, end_pos := m.2,
       suggested_replacement := none } : OptimizationSuggestion) ∈
      optimize_text text := by
  show _ ∈ generate_optimization_suggestions text
  unfold generate_optimization_suggestions
  refine List.mem_append.mpr (Or.inl (List.mem_append.mpr (Or.inr ?_)))
  exact List.mem_map.mpr ⟨m, h, rfl⟩

/-- Witness for C2: on "The ball was kicked" the match is `[9, 19)`
("was kicked") and the corresponding suggestion is in the output. -/
theorem c2_witness :
    ({ suggestion_type := "passive_voice", priority := "low",
       message := passiveVoiceMessage, start_pos := 9, end_pos := 19,
       suggested_replacement := none } : OptimizationSuggestion) ∈
      optimize_text "The ball was kicked" :=
  c2_passive_match_suggested "The ball was kicked" (9, 19) (by decide)

/-! ### Claim C7 -/

set_option maxRecDepth 16000 in
/-- C7 counterexample: `flesch_reading_ease` is listed among the fields
claimed to lie in `[0, +∞)`, but on the single three-syllable word
"banana" it is `206.835 − 1.015·1 − 84.6·3 = −47.98 < 0`; moreover
`fog_index` is NaN on the wordless text "," (see C1). -/
theorem c7_counterexample :
    (analyze_text "banana").complexity_metrics.flesch_reading_ease =
      F.val (-2399 / 50 : ℚ) ∧
    ¬ F.Nonneg ((analyze_text "banana").complexity_metrics.flesch_reading_ease) ∧
    (analyze_text ",").complexity_metrics.fog_index = F.nan := by
  refine ⟨by with_unfolding_all rfl, ?_, by decide⟩
  rw [show (analyze_text "banana").complexity_metrics.flesch_reading_ease =
        F.val (-2399 / 50 : ℚ) from by with_unfolding_all rfl]
  intro hc
  have : ¬ ((0 : ℚ) ≤ -2399 / 50) := by norm_num
  exact this hc

/-- C7 (amended): for every text, `avg_words_per_sentence`,
`avg_syllables_per_word`, `unique_word_ratio` and all five style ratios
are nonnegative finite values (never NaN, never negative), and so is
`fog_index` whenever the text has at least one word; the exceptions to the
claim are `flesch_reading_ease` (can go negative) and `fog_index` on
wordless text (NaN). -/
theorem c7_ratios_nonneg (text : String) :
    F.Nonneg (analyze_text text).complexity_metrics.avg_words_per_sentence ∧
    F.Nonneg (analyze_text text).complexity_metrics.avg_syllables_per_word ∧
    F.Nonneg (analyze_text text).complexity_metrics.unique_word_ratio ∧
    (0 < (analyze_text text).word_count →
      F.Nonneg (analyze_text text).complexity_metrics.fog_index) ∧
    F.Nonneg (analyze_text text).style_metrics.passive_voice_ratio ∧
    F.Nonneg (analyze_text text).style_metrics.adverb_ratio ∧
    F.Nonneg (analyze_text text).style_metrics.dialogue_ratio ∧
    F.Nonneg (analyze_text text).style_metrics.action_ratio ∧
    F.Nonneg (analyze_text text).style_metrics.description_ratio := by
  refine ⟨?_, ?_, ?_, ?_, ?_, ?_, ?_, ?_, ?_⟩
  · show F.Nonneg (avgWordsPerSentence text.data)
    unfold avgWordsPerSentence
    exact guardedRatio_nonneg _ _
  · exact calculate_avg_syllables_nonneg _
  · show F.Nonneg (uniqueWordRatio text.data)
    unfold uniqueWordRatio
    exact guardedRatio_nonneg _ _
  · intro hw
    show F.Nonneg (fogIndex text.data)
    have hw0 : ((wordRuns text.data).length : ℚ) ≠ 0 :=
      Nat.cast_ne_zero.mpr (Nat.pos_iff_ne_zero.mp hw)
    obtain ⟨q, hq, hq0⟩ := avgWordsPerSentence_val text.data
    unfold fogIndex
    rw [hq, F.val_div_val _ _ hw0, F.val_mul_val, F.val_add_val, F.val_mul_val]
    refine F.nonneg_val (mul_nonneg (by norm_num) (add_nonneg hq0 ?_))
    exact mul_nonneg (by norm_num)
      (div_nonneg (Nat.cast_nonneg _) (Nat.cast_nonneg _))
  · show F.Nonneg (passiveVoiceRatio text.data)
    unfold passiveVoiceRatio
    exact guardedRatio_nonneg _ _
  · show F.Nonneg (adverbRatio text.data)
    unfold adverbRatio
    exact guardedRatio_nonneg _ _
  · show F.Nonneg (dialogueRatio text.data)
    unfold dialogueRatio
    exact guardedRatio_nonneg _ _
  · exact F.nonneg_val (le_refl 0)
  · exact F.nonneg_val (le_refl 0)

/-- Witness for C7 at the concrete text "hi.", discharging the
one-word-minimum hypothesis of the `fog_index` conjunct. -/
theorem c7_witness :
    F.Nonneg ((analyze_text "hi.").complexity_metrics.fog_index) ∧
    F.Nonneg ((analyze_text "hi.").style_metrics.passive_voice_ratio) :=
  ⟨(c7_ratios_nonneg "hi.").2.2.2.1 (by decide),
   (c7_ratios_nonneg "hi.").2.2.2.2.1⟩
